import Mathlib

/-!
# kutil: create-or-patch, retrying update, service-port merge, wait-until-deleted

A shallow embedding of `core/v1/service.go` and of the attempt-counted updaters of
`kubedb/v1alpha1/postgres.go`, together with the properties the specification states
about them.

Conventions of the embedding

* A Go `error` value is `Option GoError`; `none` is `nil`.
* A Go pair `(*T, error)` returned by a typed client is `T × error`: the typed clients
  always hand back an allocated object.  Where the embedded function itself returns a
  literal `nil` pointer the component is `Option T`.
* The API server is a `Client σ Obj`: every operation maps a store state of type `σ`
  to a response and a next state.  `World` pairs the store state with the sequence of
  observable events (client calls, patch computations, sleeps) issued so far.
* `int32` fields are `Int`; no arithmetic is performed on them.
* A `[]byte` is a `String`; `len(b) == 0` is `b.length = 0`, which holds of the empty
  value only.
* Durations are natural numbers (nanoseconds); `kutil.MaxAttempts` and the attempt
  counters are natural numbers.
* Logging calls (`klog`, `glog`) are left out.
-/

namespace Kutil

/-! ## Errors (`k8s.io/apimachinery/pkg/api/errors`) -/

/-- Reasons carried by an API status error (`metav1.StatusReason`). -/
inductive StatusReason
  | Unknown
  | NotFound
  | AlreadyExists
  | Conflict
  | Forbidden
  | ServerTimeout
  | InternalError
  deriving DecidableEq, Repr

/-- Concrete error values: an API status error, or an error that only carries a
message (what `errors.New`, `errors.Errorf` and `fmt.Errorf` build). -/
inductive GoError
  | status (reason : StatusReason) (message : String)
  | text (message : String)
  deriving DecidableEq, Repr

/-- Go `error` interface value; `none` is `nil`. -/
abbrev error := Option GoError

/-- Method `Error()` of an error value. -/
def GoError.Error : GoError → String
  | .status _ m => m
  | .text m => m

/-- Function `kerr.ReasonForError`: the reason of an API status error, `Unknown` for
anything else (including `nil`). -/
def ReasonForError : error → StatusReason
  | some (.status r _) => r
  | _ => .Unknown

/-- Function `kerr.IsNotFound`. -/
def IsNotFound (err : error) : Bool :=
  decide (ReasonForError err = .NotFound)

/-- Rendering of an error under the `%v` verb. -/
def fmtV : error → String
  | none => "<nil>"
  | some e => e.Error

/-! ## Objects -/

/-- Struct `metav1.TypeMeta`. -/
structure TypeMeta where
  Kind : String
  APIVersion : String
  deriving DecidableEq, Repr

/-- Struct `metav1.ObjectMeta` (the fields the toolkit and its callers touch). -/
structure ObjectMeta where
  Name : String
  Namespace : String
  ResourceVersion : String
  Labels : List (String × String)
  deriving DecidableEq, Repr

/-- Struct `intstr.IntOrString`. -/
structure IntOrString where
  Typ : Int
  IntVal : Int
  StrVal : String
  deriving DecidableEq, Repr

/-- Struct `core.ServicePort`. -/
structure ServicePort where
  Name : String
  Protocol : String
  Port : Int
  TargetPort : IntOrString
  NodePort : Int
  deriving DecidableEq, Repr

/-- Struct `core.ServiceSpec`. -/
structure ServiceSpec where
  Ports : List ServicePort
  Selector : List (String × String)
  ClusterIP : String
  Typ : String
  deriving DecidableEq, Repr

/-- Struct `core.Service`; the two embedded structs are the first two fields. -/
structure Service where
  TypeMeta : TypeMeta
  ObjectMeta : ObjectMeta
  Spec : ServiceSpec
  deriving DecidableEq, Repr

/-- Struct `core.ServiceList`. -/
structure ServiceList where
  Items : List Service
  deriving DecidableEq, Repr

/-- Zero value of `metav1.TypeMeta`. -/
def TypeMeta.zero : TypeMeta := ⟨"", ""⟩

/-- Zero value of `metav1.ObjectMeta`. -/
def ObjectMeta.zero : ObjectMeta := ⟨"", "", "", []⟩

/-- Zero value of `intstr.IntOrString`. -/
def IntOrString.zero : IntOrString := ⟨0, 0, ""⟩

/-- Zero value of `core.ServicePort`. -/
def ServicePort.zero : ServicePort := ⟨"", "", 0, IntOrString.zero, 0⟩

/-- Zero value of `core.ServiceSpec`. -/
def ServiceSpec.zero : ServiceSpec := ⟨[], [], "", ""⟩

/-- Zero value of `core.Service`. -/
def Service.zero : Service := ⟨TypeMeta.zero, ObjectMeta.zero, ServiceSpec.zero⟩

/-- Struct `schema.GroupVersion`. -/
structure GroupVersion where
  Group : String
  Version : String
  deriving DecidableEq, Repr

/-- Method `GroupVersion.String`: `group/version`, or just the version for the
group with the empty name. -/
def GroupVersion.String (gv : GroupVersion) : String :=
  if gv.Group.length > 0 then gv.Group ++ "/" ++ gv.Version else gv.Version

/-- Variable `core.SchemeGroupVersion`. -/
def SchemeGroupVersion : GroupVersion := ⟨"", "v1"⟩

/-! ## `MergeServicePorts` -/

/-- Go map `map[int32]core.ServicePort` as a finite function. -/
abbrev PortMap := Int → Option ServicePort

/-- Assignment `m[k] = v`. -/
def PortMap.insert (m : PortMap) (k : Int) (v : ServicePort) : PortMap :=
  fun j => if j = k then some v else m j

/-- First loop of `MergeServicePorts`: `curPorts[p.Port] = p` for every `p` of `cur`,
in order. -/
def curPorts (cur : List ServicePort) : PortMap :=
  cur.foldl (fun m p => m.insert p.Port p) (fun _ => none)

/-- What the body of the second loop assigns to `dp` once `cp` has been found. -/
def mergePort (cp dp : ServicePort) : ServicePort :=
  let dp1 := if dp.NodePort = 0 then { dp with NodePort := cp.NodePort } else dp
  if dp1.Protocol = "" then { dp1 with Protocol := cp.Protocol } else dp1

/-- One iteration `i` of the second loop of `MergeServicePorts`, acting on the slice
`desired` in place. -/
def mergeStep (m : PortMap) (desired : List ServicePort) (i : Nat) : List ServicePort :=
  match desired[i]? with
  | none => desired
  | some dp =>
    match m dp.Port with
    | none => desired
    | some cp => desired.set i (mergePort cp dp)

/-- Function `MergeServicePorts` of `core/v1/service.go`. -/
def MergeServicePorts (cur desired : List ServicePort) : List ServicePort :=
  if cur.length = 0 then desired
  else (List.range desired.length).foldl (mergeStep (curPorts cur)) desired

/-- The entry of `cur` that a lookup by port `p` is expected to give: the last one
whose `Port` is `p`. -/
def lastWithPort (cur : List ServicePort) (p : Int) : Option ServicePort :=
  (cur.filter (fun c => decide (c.Port = p))).getLast?

/-- Per-entry effect of the second loop. -/
def mergeEntry (m : PortMap) (dp : ServicePort) : ServicePort :=
  match m dp.Port with
  | none => dp
  | some cp => mergePort cp dp

/-! ## Constants of package `kutil` -/

/-- Type `kutil.VerbType`. -/
inductive VerbType
  | VerbUnchanged
  | VerbCreated
  | VerbPatched
  deriving DecidableEq, Repr

/-- Constants `kutil.RetryInterval`, `kutil.RetryTimeout`, `kutil.ReadinessTimeout`
and `kutil.MaxAttempts`; their declarations are taken as parameters. -/
structure Config where
  RetryInterval : Nat
  RetryTimeout : Nat
  ReadinessTimeout : Nat
  MaxAttempts : Nat
  deriving DecidableEq, Repr

/-! ## The store and the observable events -/

/-- Type `types.PatchType`. -/
inductive PatchType
  | JSONPatchType
  | MergePatchType
  | StrategicMergePatchType
  deriving DecidableEq, Repr

/-- Struct `metav1.ListOptions`. -/
structure ListOptions where
  LabelSelector : String
  deriving DecidableEq, Repr

/-- Typed client of one object kind (`c.CoreV1().Services(ns)`, `c.Postgreses(ns)`),
as transitions of a store state `σ`.  The first `String` of every operation is the
namespace the client was obtained for. -/
structure Client (σ Obj ObjList : Type) where
  Get : σ → String → String → (Obj × error) × σ
  Create : σ → String → Obj → (Obj × error) × σ
  Update : σ → String → Obj → (Obj × error) × σ
  Patch : σ → String → String → PatchType → String → (Obj × error) × σ
  List : σ → String → ListOptions → (ObjList × error) × σ

/-- What a run does that can be observed from outside: calls to the client, the
computation of a two-way merge patch (with its outcome), and sleeps. -/
inductive Event (Obj : Type)
  | get (ns name : String)
  | create (ns : String) (obj : Obj)
  | update (ns : String) (obj : Obj)
  | patch (ns name : String) (pt : PatchType) (data : String)
  | list (ns : String) (opts : ListOptions)
  | diff (original modified patch : String) (err : error)
  | sleep (d : Nat)
  deriving DecidableEq, Repr

/-- Events that are a write to the store. -/
def Event.isWrite {Obj : Type} : Event Obj → Bool
  | .create _ _ => true
  | .update _ _ => true
  | .patch _ _ _ _ => true
  | _ => false

/-- Store state together with the events issued so far, oldest first. -/
structure World (σ Obj : Type) where
  store : σ
  events : List (Event Obj)
  deriving DecidableEq

/-- World in store state `s` in which nothing has been issued yet. -/
def World.init {σ Obj : Type} (s : σ) : World σ Obj := ⟨s, []⟩

/-- Call `Get(name, metav1.GetOptions{})` on the client for namespace `ns`. -/
def doGet {σ Obj L : Type} (c : Client σ Obj L) (w : World σ Obj) (ns name : String) :
    (Obj × error) × World σ Obj :=
  let r := c.Get w.store ns name
  (r.1, ⟨r.2, w.events ++ [.get ns name]⟩)

/-- Call `Create(obj)` on the client for namespace `ns`. -/
def doCreate {σ Obj L : Type} (c : Client σ Obj L) (w : World σ Obj) (ns : String) (obj : Obj) :
    (Obj × error) × World σ Obj :=
  let r := c.Create w.store ns obj
  (r.1, ⟨r.2, w.events ++ [.create ns obj]⟩)

/-- Call `Update(obj)` on the client for namespace `ns`. -/
def doUpdate {σ Obj L : Type} (c : Client σ Obj L) (w : World σ Obj) (ns : String) (obj : Obj) :
    (Obj × error) × World σ Obj :=
  let r := c.Update w.store ns obj
  (r.1, ⟨r.2, w.events ++ [.update ns obj]⟩)

/-- Call `Patch(name, pt, data)` on the client for namespace `ns`. -/
def doPatch {σ Obj L : Type} (c : Client σ Obj L) (w : World σ Obj) (ns name : String)
    (pt : PatchType) (data : String) : (Obj × error) × World σ Obj :=
  let r := c.Patch w.store ns name pt data
  (r.1, ⟨r.2, w.events ++ [.patch ns name pt data]⟩)

/-- Call `List(opts)` on the client for namespace `ns`. -/
def doList {σ Obj L : Type} (c : Client σ Obj L) (w : World σ Obj) (ns : String)
    (opts : ListOptions) : (L × error) × World σ Obj :=
  let r := c.List w.store ns opts
  (r.1, ⟨r.2, w.events ++ [.list ns opts]⟩)

/-- Sleep of duration `d` (`time.Sleep`, or one tick of a poll). -/
def doSleep {σ Obj : Type} (w : World σ Obj) (d : Nat) : World σ Obj :=
  ⟨w.store, w.events ++ [.sleep d]⟩

/-- Library functions the embedded code calls on serialised objects: `json.Marshal`
and `strategicpatch.CreateTwoWayMergePatch`.  A `[]byte` is a `String`. -/
structure Lib (Obj : Type) where
  Marshal : Obj → String × error
  CreateTwoWayMergePatch : String → String → String × error

/-- Call of `strategicpatch.CreateTwoWayMergePatch(original, modified, _)`, recorded
with its outcome. -/
def doDiff {σ Obj : Type} (lib : Lib Obj) (w : World σ Obj) (original modified : String) :
    (String × error) × World σ Obj :=
  let r := lib.CreateTwoWayMergePatch original modified
  (r, ⟨w.store, w.events ++ [.diff original modified r.1 r.2]⟩)

/-- Go value of type `func(*T) *T`.  `ret x` is the object the returned pointer refers
to when the function is called on an object with contents `x`; `arg x` is the
contents of that argument object when the call returns (a function that edits its
argument in place has `arg = ret`, one that leaves it alone has `arg = id`). -/
structure Transform (Obj : Type) where
  ret : Obj → Obj
  arg : Obj → Obj

/-- Transform that edits the object it is given and returns that same pointer. -/
def Transform.inPlace {Obj : Type} (f : Obj → Obj) : Transform Obj := ⟨f, f⟩

/-- Transform that builds its result without touching its argument. -/
def Transform.copying {Obj : Type} (f : Obj → Obj) : Transform Obj := ⟨f, id⟩

/-! ## `core/v1/service.go` -/

/-- Client type `ServiceInterface`. -/
abbrev ServiceClient (σ : Type) := Client σ Service ServiceList

/-- Function `PatchServiceObject`. -/
def PatchServiceObject {σ : Type} (c : ServiceClient σ) (lib : Lib Service)
    (cur mod : Service) (w : World σ Service) :
    (Option Service × VerbType × error) × World σ Service :=
  let (curJson, err) := lib.Marshal cur
  if err.isSome then ((none, .VerbUnchanged, err), w)
  else
    let (modJson, err) := lib.Marshal mod
    if err.isSome then ((none, .VerbUnchanged, err), w)
    else
      let ((patch, err), w1) := doDiff lib w curJson modJson
      if err.isSome then ((none, .VerbUnchanged, err), w1)
      else if patch.length = 0 ∨ patch = "\x7b\x7d" then ((some cur, .VerbUnchanged, none), w1)
      else
        let ((out, err), w2) :=
          doPatch c w1 cur.ObjectMeta.Namespace cur.ObjectMeta.Name .StrategicMergePatchType patch
        ((some out, .VerbPatched, err), w2)

/-- Function `PatchService`: `transform` runs on `cur.DeepCopy()`, so `cur` keeps its
contents whatever `transform` does to its argument. -/
def PatchService {σ : Type} (c : ServiceClient σ) (lib : Lib Service)
    (cur : Service) (transform : Transform Service) (w : World σ Service) :
    (Option Service × VerbType × error) × World σ Service :=
  PatchServiceObject c lib cur (transform.ret cur) w

/-- Object literal `&core.Service{TypeMeta: ..., ObjectMeta: meta}` of
`CreateOrPatchService`. -/
def freshService (meta : ObjectMeta) : Service :=
  { TypeMeta := { Kind := "Service", APIVersion := SchemeGroupVersion.String }
    ObjectMeta := meta
    Spec := ServiceSpec.zero }

/-- Function `CreateOrPatchService`. -/
def CreateOrPatchService {σ : Type} (c : ServiceClient σ) (lib : Lib Service)
    (meta : ObjectMeta) (transform : Transform Service) (w : World σ Service) :
    (Option Service × VerbType × error) × World σ Service :=
  let ((cur, err), w1) := doGet c w meta.Namespace meta.Name
  if IsNotFound err then
    let ((out, err), w2) := doCreate c w1 meta.Namespace (transform.ret (freshService meta))
    ((some out, .VerbCreated, err), w2)
  else if err.isSome then ((none, .VerbUnchanged, err), w1)
  else PatchService c lib cur transform w1

/-- Variable `wait.ErrWaitTimeout`. -/
def ErrWaitTimeout : GoError := .text "timed out waiting for the condition"

/-- Cycles of `wait.PollImmediate` after the first one.  The last argument but one is
the number of intervals left before the timeout: while there is one, the poll waits
for it and evaluates the condition.  When there is none left it waits for `rest`, the
time that remains until the timeout, evaluates the condition a last time, and
reports `ErrWaitTimeout` unless that evaluation gives an error or `true`. -/
def pollLoop {V σ Obj : Type} (interval rest : Nat)
    (condition : V × World σ Obj → (Bool × error) × V × World σ Obj) :
    Nat → V × World σ Obj → error × V × World σ Obj
  | 0, s =>
    let ((done, err), s2) := condition (s.1, doSleep s.2 rest)
    if err.isSome then (err, s2)
    else if done then (none, s2)
    else (some ErrWaitTimeout, s2)
  | n + 1, s =>
    let ((done, err), s2) := condition (s.1, doSleep s.2 interval)
    if err.isSome then (err, s2)
    else if done then (none, s2)
    else pollLoop interval rest condition n s2

/-- Function `wait.PollImmediate(interval, timeout, condition)` on a discrete clock,
for a positive `timeout` (the library takes a timeout of 0 to mean none, and the
constants of package `kutil` are positive): the condition is evaluated at once, then
once after every full interval that fits in the timeout, and once more when the
timeout is reached, until it reports an error or `true`; if it never does the result
is `ErrWaitTimeout`.  `V` holds the variables the condition closure captures. -/
def PollImmediate {V σ Obj : Type} (interval timeout : Nat)
    (condition : V × World σ Obj → (Bool × error) × V × World σ Obj)
    (s : V × World σ Obj) : error × V × World σ Obj :=
  let ((done, err), s1) := condition s
  if err.isSome then (err, s1)
  else if done then (none, s1)
  else pollLoop interval (timeout % interval) condition (timeout / interval) s1

/-- Variables `attempt` and `result` that the closure of `TryUpdateService` captures. -/
structure UpdateVars where
  attempt : Nat
  result : Option Service
  deriving DecidableEq, Repr

/-- Closure passed to `wait.PollImmediate` by `TryUpdateService`. -/
def TryUpdateService.condition {σ : Type} (c : ServiceClient σ) (meta : ObjectMeta)
    (transform : Transform Service) (s : UpdateVars × World σ Service) :
    (Bool × error) × UpdateVars × World σ Service :=
  let v1 : UpdateVars := { s.1 with attempt := s.1.attempt + 1 }
  let ((cur, e2), w1) := doGet c s.2 meta.Namespace meta.Name
  if IsNotFound e2 then ((false, e2), v1, w1)
  else if e2.isNone then
    let ((out, e2), w2) := doUpdate c w1 cur.ObjectMeta.Namespace (transform.ret cur)
    ((e2.isNone, none), { v1 with result := some out }, w2)
  else ((false, none), v1, w1)

/-- Error built by `errors.Errorf` at the end of `TryUpdateService`. -/
def TryUpdateService.failure (meta : ObjectMeta) (attempt : Nat) (err : error) : GoError :=
  .text ("failed to update Service " ++ meta.Namespace ++ "/" ++ meta.Name ++ " after " ++
    toString attempt ++ " attempts due to " ++ fmtV err)

/-- Function `TryUpdateService`. -/
def TryUpdateService {σ : Type} (c : ServiceClient σ) (cfg : Config) (meta : ObjectMeta)
    (transform : Transform Service) (w : World σ Service) :
    (Option Service × error) × World σ Service :=
  let (err, v, w1) :=
    PollImmediate cfg.RetryInterval cfg.RetryTimeout
      (TryUpdateService.condition c meta transform) (⟨0, none⟩, w)
  if err.isSome then ((v.result, some (TryUpdateService.failure meta v.attempt err)), w1)
  else ((v.result, err), w1)

/-- Closure passed to `wait.PollImmediate` by `WaitUntilServiceDeletedBySelector`. -/
def WaitUntilServiceDeletedBySelector.condition {σ : Type} (c : ServiceClient σ)
    (ns selString : String) (s : Unit × World σ Service) :
    (Bool × error) × Unit × World σ Service :=
  let ((svcList, err), w1) := doList c s.2 ns { LabelSelector := selString }
  if err.isSome then ((false, none), (), w1)
  else ((decide (svcList.Items.length = 0), none), (), w1)

/-- Function `WaitUntilServiceDeletedBySelector`.  The label-selector library is a
parameter: `LabelSelectorAsSelector` converts (and may reject) a selector, `selString`
is method `String` of the converted selector. -/
def WaitUntilServiceDeletedBySelector {σ LabelSelector Selector : Type} (c : ServiceClient σ)
    (cfg : Config) (LabelSelectorAsSelector : LabelSelector → Selector × error)
    (selString : Selector → String) (ns : String) (selector : LabelSelector)
    (w : World σ Service) : error × World σ Service :=
  let (sel, err) := LabelSelectorAsSelector selector
  if err.isSome then (err, w)
  else
    let (err, _, w1) :=
      PollImmediate cfg.RetryInterval cfg.ReadinessTimeout
        (WaitUntilServiceDeletedBySelector.condition c ns (selString sel)) ((), w)
    (err, w1)

/-! ## `kubedb/v1alpha1/postgres.go` -/

/-- Struct `aci.PostgresSpec` (the fields used here). -/
structure PostgresSpec where
  Version : String
  Replicas : Int
  deriving DecidableEq, Repr

/-- Struct `aci.Postgres`. -/
structure Postgres where
  TypeMeta : TypeMeta
  ObjectMeta : ObjectMeta
  Spec : PostgresSpec
  deriving DecidableEq, Repr

/-- Struct `aci.PostgresList`. -/
structure PostgresList where
  Items : List Postgres
  deriving DecidableEq, Repr

/-- Client type `PostgresInterface`. -/
abbrev PostgresClient (σ : Type) := Client σ Postgres PostgresList

/-- Error built by `fmt.Errorf` at the end of `TryUpdatePostgres`. -/
def TryUpdatePostgres.failure (meta : ObjectMeta) (attempt : Nat) : GoError :=
  .text ("Failed to update Postgres " ++ meta.Name ++ "@" ++ meta.Namespace ++ " after " ++
    toString attempt ++ " attempts.")

/-- Loop `for ; attempt < kutil.MaxAttempts; attempt = attempt + 1` of
`TryUpdatePostgres`, and the `return` after it.  The first argument is
`MaxAttempts - attempt`.  `transform` is called on `cur` itself, twice: the second
call sees what the first one left in `cur`. -/
def TryUpdatePostgres.loop {σ : Type} (c : PostgresClient σ) (lib : Lib Postgres) (cfg : Config)
    (meta : ObjectMeta) (transform : Transform Postgres) :
    Nat → Nat → World σ Postgres → (Option Postgres × error) × World σ Postgres
  | 0, attempt, w => ((none, some (TryUpdatePostgres.failure meta attempt)), w)
  | n + 1, attempt, w =>
    let ((cur, err), w1) := doGet c w meta.Namespace meta.Name
    if IsNotFound err then ((some cur, err), w1)
    else if err.isNone then
      let (oJson, err) := lib.Marshal cur
      if err.isSome then ((none, err), w1)
      else
        let modified := transform.ret cur
        let cur1 := transform.arg cur
        let (mJson, err) := lib.Marshal modified
        if err.isSome then ((none, err), w1)
        else if oJson = mJson then ((some cur1, err), w1)
        else
          let ((result, err), w2) :=
            doUpdate c w1 cur1.ObjectMeta.Namespace (transform.ret cur1)
          ((some result, err), w2)
    else TryUpdatePostgres.loop c lib cfg meta transform n (attempt + 1)
      (doSleep w1 cfg.RetryInterval)

/-- Function `TryUpdatePostgres` (`TryUpdateDormantDatabase` is the same text for
another kind). -/
def TryUpdatePostgres {σ : Type} (c : PostgresClient σ) (lib : Lib Postgres) (cfg : Config)
    (meta : ObjectMeta) (transform : Transform Postgres) (w : World σ Postgres) :
    (Option Postgres × error) × World σ Postgres :=
  TryUpdatePostgres.loop c lib cfg meta transform cfg.MaxAttempts 0 w

/-! ## Stores that answer from a script -/

/-- Responses of a store, one sequence per operation: the `i`-th call of an
operation gets the `i`-th response of its sequence (counting from 0), whatever its
arguments. -/
structure Script (Obj ObjList : Type) where
  gets : Nat → Obj × error
  creates : Nat → Obj × error
  updates : Nat → Obj × error
  patches : Nat → Obj × error
  lists : Nat → ObjList × error

/-- Number of calls of each operation answered so far. -/
structure Cursor where
  gets : Nat
  creates : Nat
  updates : Nat
  patches : Nat
  lists : Nat
  deriving DecidableEq, Repr

/-- Cursor of a store that has answered nothing yet. -/
def Cursor.start : Cursor := ⟨0, 0, 0, 0, 0⟩

/-- Client that answers from a script. -/
def Script.client {Obj ObjList : Type} (sc : Script Obj ObjList) : Client Cursor Obj ObjList where
  Get s _ _ := (sc.gets s.gets, { s with gets := s.gets + 1 })
  Create s _ _ := (sc.creates s.creates, { s with creates := s.creates + 1 })
  Update s _ _ := (sc.updates s.updates, { s with updates := s.updates + 1 })
  Patch s _ _ _ _ := (sc.patches s.patches, { s with patches := s.patches + 1 })
  List s _ _ := (sc.lists s.lists, { s with lists := s.lists + 1 })

/-- Events of attempts `0 .. k` of `TryUpdateService` when every attempt gets and then
updates: attempt `i` gets, and submits `transform` of what `get` number `i` returned;
one interval of sleep separates two attempts. -/
def updateAttempts (sc : Script Service ServiceList) (meta : ObjectMeta)
    (transform : Transform Service) (interval : Nat) : Nat → List (Event Service)
  | 0 =>
    [.get meta.Namespace meta.Name,
     .update (sc.gets 0).1.ObjectMeta.Namespace (transform.ret (sc.gets 0).1)]
  | i + 1 =>
    updateAttempts sc meta transform interval i ++
      [.sleep interval, .get meta.Namespace meta.Name,
       .update (sc.gets (i + 1)).1.ObjectMeta.Namespace (transform.ret (sc.gets (i + 1)).1)]

/-- Events of poll cycles `0 .. n` of `WaitUntilServiceDeletedBySelector`: one `list`
per cycle, one interval of sleep between two cycles, none before the first. -/
def listCycles (ns : String) (opts : ListOptions) (interval : Nat) : Nat → List (Event Service)
  | 0 => [.list ns opts]
  | i + 1 => listCycles ns opts interval i ++ [.sleep interval, .list ns opts]

/-- Captured variables and world of `TryUpdateService` against a scripted store once
attempts `0 .. j` have each done their `get` and their `update`. -/
def afterAttempt (sc : Script Service ServiceList) (meta : ObjectMeta)
    (transform : Transform Service) (interval : Nat) (j : Nat) :
    UpdateVars × World Cursor Service :=
  (⟨j + 1, some (sc.updates j).1⟩,
   ⟨⟨j + 1, 0, j + 1, 0, 0⟩, updateAttempts sc meta transform interval j⟩)

/-- World of `WaitUntilServiceDeletedBySelector` against a scripted store once cycles
`0 .. j` have each done their `list`. -/
def afterCycle (ns : String) (opts : ListOptions) (interval : Nat) (j : Nat) :
    Unit × World Cursor Service :=
  ((), ⟨⟨0, 0, 0, 0, j + 1⟩, listCycles ns opts interval j⟩)

/-- Events that are a `list` call. -/
def Event.isList {Obj : Type} : Event Obj → Bool
  | .list _ _ => true
  | _ => false

/-! ## Concrete inputs used by the examples -/

/-- Entry `{Port: 80, NodePort: 30001}`. -/
def exampleCurPort : ServicePort := { ServicePort.zero with Port := 80, NodePort := 30001 }

/-- Entry `{Port: 80}`. -/
def exampleDesiredPort : ServicePort := { ServicePort.zero with Port := 80 }

/-- Identity `default/web`. -/
def exampleMeta : ObjectMeta := { ObjectMeta.zero with Name := "web", Namespace := "default" }

/-- A stand-in for `json.Marshal` on services: a rendering that never fails. -/
def exampleMarshal (s : Service) : String × error :=
  (s.TypeMeta.APIVersion ++ "," ++ s.TypeMeta.Kind ++ "," ++ s.ObjectMeta.Namespace ++ "/" ++
    s.ObjectMeta.Name ++ "," ++ s.Spec.Typ ++ "," ++ s.Spec.ClusterIP, none)

/-- A stand-in for the patch generator: the empty document for equal inputs, the
modified document otherwise. -/
def exampleDiff (original modified : String) : String × error :=
  if original = modified then ("\x7b\x7d", none) else (modified, none)

/-- Library made of `exampleMarshal` and `exampleDiff`. -/
def exampleLib : Lib Service := ⟨exampleMarshal, exampleDiff⟩

/-- Look a service up by namespace and name. -/
def findService (s : List Service) (ns name : String) : Option Service :=
  s.find? (fun o => decide (o.ObjectMeta.Namespace = ns ∧ o.ObjectMeta.Name = name))

/-- A store that holds a list of services: `Get` finds by namespace and name or
reports not-found, `Create` adds, `Update` and `Patch` answer with what is stored,
`List` returns everything.  No operation but `Create` changes the store. -/
def memClient : ServiceClient (List Service) where
  Get s ns name :=
    match findService s ns name with
    | some o => ((o, none), s)
    | none => ((Service.zero, some (.status .NotFound ("services \"" ++ name ++ "\" not found"))), s)
  Create s _ obj := ((obj, none), s ++ [obj])
  Update s _ obj := ((obj, none), s)
  Patch s ns name _ _ := (((findService s ns name).getD Service.zero, none), s)
  List s _ _ := ((⟨s⟩, none), s)

/-- A store that refuses every request with a `Forbidden` status error. -/
def forbiddenClient : ServiceClient Unit where
  Get _ _ _ := ((Service.zero, some (.status .Forbidden "forbidden")), ())
  Create _ _ _ := ((Service.zero, some (.status .Forbidden "forbidden")), ())
  Update _ _ _ := ((Service.zero, some (.status .Forbidden "forbidden")), ())
  Patch _ _ _ _ _ := ((Service.zero, some (.status .Forbidden "forbidden")), ())
  List _ _ _ := ((⟨[]⟩, some (.status .Forbidden "forbidden")), ())

/-- Transform that sets the service type to `ClusterIP`, in place. -/
def setClusterIP : Transform Service :=
  Transform.inPlace (fun s => { s with Spec := { s.Spec with Typ := "ClusterIP" } })

/-- The service `default/web` as `setClusterIP` leaves it. -/
def exampleService : Service :=
  { TypeMeta := ⟨"Service", "v1"⟩, ObjectMeta := exampleMeta
    Spec := { ServiceSpec.zero with Typ := "ClusterIP" } }

/-- Settings: 50 ms between attempts, 2 s of retrying, 10 min of waiting for
readiness, 3 attempts. -/
def exampleConfig : Config :=
  { RetryInterval := 50000000, RetryTimeout := 2000000000,
    ReadinessTimeout := 600000000000, MaxAttempts := 3 }

/-- The service `default/web` at resource version `rv`, before `setClusterIP`. -/
def versionedService (rv : String) : Service :=
  { TypeMeta := ⟨"Service", "v1"⟩
    ObjectMeta := { exampleMeta with ResourceVersion := rv }
    Spec := ServiceSpec.zero }

/-- A script in which another writer gets in the way twice: every `get` succeeds and
returns the object at a newer resource version, the first two updates are rejected
with `Conflict`, the third one succeeds; `list` returns one service twice and then
nothing. -/
def conflictTwiceScript : Script Service ServiceList where
  gets i := (versionedService (if i = 0 then "1" else if i = 1 then "2" else "3"), none)
  creates _ := (Service.zero, none)
  updates i :=
    if i < 2 then (Service.zero, some (.status .Conflict "the object has been modified"))
    else (setClusterIP.ret (versionedService "4"), none)
  patches _ := (Service.zero, none)
  lists i := if i < 2 then (⟨[exampleService]⟩, none) else (⟨[]⟩, none)

/-- The Postgres object `default/pg` with the given number of replicas. -/
def examplePostgres (replicas : Int) : Postgres :=
  { TypeMeta := ⟨"Postgres", "kubedb.com/v1alpha1"⟩
    ObjectMeta := { ObjectMeta.zero with Name := "pg", Namespace := "default" }
    Spec := { Version := "9.6", Replicas := replicas } }

/-- A stand-in for `json.Marshal` on Postgres objects: a rendering that never fails. -/
def postgresMarshal (p : Postgres) : String × error :=
  (p.ObjectMeta.Namespace ++ "/" ++ p.ObjectMeta.Name ++ "," ++ p.Spec.Version ++ "," ++
    toString p.Spec.Replicas, none)

/-- Library made of `postgresMarshal` and `exampleDiff`. -/
def postgresLib : Lib Postgres := ⟨postgresMarshal, exampleDiff⟩

/-- Transform that adds one replica, editing the object it is given and returning it. -/
def addReplica : Transform Postgres :=
  Transform.inPlace (fun p => { p with Spec := { p.Spec with Replicas := p.Spec.Replicas + 1 } })

/-- Transform that adds one replica on a copy, leaving the object it is given alone. -/
def addReplicaOnCopy : Transform Postgres :=
  Transform.copying (fun p => { p with Spec := { p.Spec with Replicas := p.Spec.Replicas + 1 } })

/-- A script whose `get` always returns `default/pg` with one replica and whose
`update` is always rejected with `Conflict`. -/
def alwaysConflictScript : Script Postgres PostgresList where
  gets _ := (examplePostgres 1, none)
  creates _ := (examplePostgres 0, none)
  updates _ := (examplePostgres 0, some (.status .Conflict "the object has been modified"))
  patches _ := (examplePostgres 0, none)
  lists _ := (⟨[]⟩, none)

/-- A script whose `get` always returns `default/pg` with one replica and whose
`update` always succeeds. -/
def acceptingScript : Script Postgres PostgresList where
  gets _ := (examplePostgres 1, none)
  creates _ := (examplePostgres 0, none)
  updates _ := (examplePostgres 0, none)
  patches _ := (examplePostgres 0, none)
  lists _ := (⟨[]⟩, none)

/-! ### Lemmas on `MergeServicePorts` -/

theorem curPorts_append_singleton (l : List ServicePort) (a : ServicePort) :
    curPorts (l ++ [a]) = (curPorts l).insert a.Port a := by
  simp [curPorts, List.foldl_append]

theorem curPorts_eq_lastWithPort (cur : List ServicePort) (p : Int) :
    curPorts cur p = lastWithPort cur p := by
  induction cur using List.reverseRecOn with
  | nil => simp [curPorts, lastWithPort]
  | append_singleton l a ih =>
    rw [curPorts_append_singleton]
    unfold lastWithPort at ih ⊢
    by_cases h : a.Port = p
    · simp [PortMap.insert, List.filter_append, h]
    · have h2 : ¬ p = a.Port := fun e => h e.symm
      simp [PortMap.insert, List.filter_append, h, h2, ih]

theorem mergeStep_getElem? (m : PortMap) (d : List ServicePort) (i j : Nat) :
    (mergeStep m d i)[j]? = if j = i then (d[j]?).map (mergeEntry m) else d[j]? := by
  unfold mergeStep
  by_cases hji : j = i
  · subst hji
    cases hd : d[j]? with
    | none => simp [hd]
    | some dp =>
      simp only [if_true, Option.map_some']
      cases hm : m dp.Port with
      | none => simp [hd, mergeEntry, hm]
      | some cp =>
        have hlt : j < d.length := by
          rcases List.getElem?_eq_some_iff.mp hd with ⟨h, _⟩
          exact h
        simp [mergeEntry, hm, List.getElem?_set, hlt]
  · simp only [hji, if_false]
    cases hd : d[i]? with
    | none => rfl
    | some dp =>
      cases hm : m dp.Port with
      | none => simp [hm]
      | some cp =>
        have hij : ¬ i = j := fun e => hji e.symm
        simp [hm, List.getElem?_set, hij]

theorem foldl_mergeStep_getElem? (m : PortMap) (n : Nat) (d : List ServicePort) (j : Nat) :
    ((List.range n).foldl (mergeStep m) d)[j]? =
      if j < n then (d[j]?).map (mergeEntry m) else d[j]? := by
  induction n with
  | zero => simp
  | succ n ih =>
    rw [List.range_succ, List.foldl_append]
    simp only [List.foldl_cons, List.foldl_nil]
    rw [mergeStep_getElem?, ih]
    by_cases h1 : j = n
    · subst h1
      simp
    · by_cases h2 : j < n
      · have h3 : j < n + 1 := by omega
        simp [h1, h2, h3]
      · have h3 : ¬ j < n + 1 := by omega
        simp [h1, h2, h3]

theorem MergeServicePorts_getElem? (cur desired : List ServicePort) (j : Nat) :
    (MergeServicePorts cur desired)[j]? = (desired[j]?).map (mergeEntry (curPorts cur)) := by
  unfold MergeServicePorts
  split
  · rename_i h
    have hc : cur = [] := List.length_eq_zero.mp h
    subst hc
    cases hd : desired[j]? with
    | none => rfl
    | some dp => simp [mergeEntry, curPorts]
  · rw [foldl_mergeStep_getElem?]
    by_cases h : j < desired.length
    · simp [h]
    · have : desired[j]? = none := List.getElem?_eq_none (by omega)
      simp [h, this]

theorem MergeServicePorts_eq_map (cur desired : List ServicePort) :
    MergeServicePorts cur desired = desired.map (mergeEntry (curPorts cur)) := by
  apply List.ext_getElem?
  intro j
  rw [MergeServicePorts_getElem?, List.getElem?_map]
/-! ### `MergeServicePorts`: the merged entry and the frame -/

theorem lastWithPort_isSome_of_mem (cur : List ServicePort) (p : Int)
    (h : ∃ c ∈ cur, c.Port = p) : ∃ cp, lastWithPort cur p = some cp := by
  obtain ⟨c, hc, hp⟩ := h
  have hmem : c ∈ cur.filter (fun c => decide (c.Port = p)) := by
    simp [List.mem_filter, hc, hp]
  have hne : cur.filter (fun c => decide (c.Port = p)) ≠ [] := List.ne_nil_of_mem hmem
  exact ⟨_, List.getLast?_eq_getLast _ hne⟩

theorem lastWithPort_eq_none_of_not_mem (cur : List ServicePort) (p : Int)
    (h : ∀ c ∈ cur, c.Port ≠ p) : lastWithPort cur p = none := by
  have : cur.filter (fun c => decide (c.Port = p)) = [] := by
    simp only [List.filter_eq_nil_iff]
    intro c hc
    simp [h c hc]
  simp [lastWithPort, this]

theorem mergePort_frame (cp dp : ServicePort) :
    { mergePort cp dp with NodePort := dp.NodePort, Protocol := dp.Protocol } = dp := by
  unfold mergePort
  cases dp with
  | mk n pr po tp np =>
    by_cases h1 : np = 0 <;> by_cases h2 : pr = "" <;> simp [h1, h2]

theorem mergeEntry_frame (m : PortMap) (dp : ServicePort) :
    { mergeEntry m dp with NodePort := dp.NodePort, Protocol := dp.Protocol } = dp := by
  unfold mergeEntry
  cases m dp.Port with
  | none => rfl
  | some cp => exact mergePort_frame cp dp

/-- C1: for a non-empty `cur`, an entry `dp` at index `i` of `desired` whose `Port`
occurs in `cur` and whose `NodePort` is 0 is, at index `i` of the result, `dp` with
the `NodePort` of the last entry `cp` of `cur` that has that `Port` (and with the
`Protocol` of `cp` when `dp` has none). -/
theorem MergeServicePorts_preserves_NodePort (cur desired : List ServicePort) (i : Nat)
    (dp : ServicePort) (hcur : cur ≠ []) (hdp : desired[i]? = some dp)
    (hport : ∃ c ∈ cur, c.Port = dp.Port) (hnode : dp.NodePort = 0) :
    ∃ cp, lastWithPort cur dp.Port = some cp ∧
      (MergeServicePorts cur desired)[i]? =
        some { dp with
          NodePort := cp.NodePort
          Protocol := if dp.Protocol = "" then cp.Protocol else dp.Protocol } := by
  have _ := hcur
  obtain ⟨cp, hcp⟩ := lastWithPort_isSome_of_mem cur dp.Port hport
  refine ⟨cp, hcp, ?_⟩
  rw [MergeServicePorts_getElem?, hdp]
  have hm : curPorts cur dp.Port = some cp := by rw [curPorts_eq_lastWithPort, hcp]
  simp only [Option.map_some', mergeEntry, hm, mergePort, hnode, if_true]
  by_cases h2 : dp.Protocol = "" <;> simp [h2]

/-- C1, the example of the specification: `cur = [{Port: 80, NodePort: 30001}]` and
`desired = [{Port: 80}]` give `[{Port: 80, NodePort: 30001}]`. -/
theorem MergeServicePorts_preserves_NodePort_witness :
    MergeServicePorts [exampleCurPort] [exampleDesiredPort] = [exampleCurPort] ∧
    ∃ cp, lastWithPort [exampleCurPort] exampleDesiredPort.Port = some cp ∧
      (MergeServicePorts [exampleCurPort] [exampleDesiredPort])[0]? =
        some { exampleDesiredPort with
          NodePort := cp.NodePort
          Protocol :=
            if exampleDesiredPort.Protocol = "" then cp.Protocol
            else exampleDesiredPort.Protocol } :=
  ⟨by decide,
   MergeServicePorts_preserves_NodePort [exampleCurPort] [exampleDesiredPort] 0
    exampleDesiredPort (by decide) rfl ⟨exampleCurPort, List.mem_singleton.mpr rfl, rfl⟩ rfl⟩

/-- C10: the result of `MergeServicePorts` has the length of `desired`; each entry
keeps its `Port` and every field other than `NodePort` and `Protocol`; an entry whose
`Port` is not in `cur`, or that has both a `NodePort` and a `Protocol`, is returned as
it is; an empty `cur` gives `desired` back; and no entry of `cur` whose `Port` is
absent from `desired` is in the result. -/
theorem MergeServicePorts_frame (cur desired : List ServicePort) :
    (MergeServicePorts cur desired).length = desired.length ∧
    (∀ (i : Nat) (dp : ServicePort), desired[i]? = some dp →
      ∃ r : ServicePort, (MergeServicePorts cur desired)[i]? = some r ∧ r.Port = dp.Port ∧
        { r with NodePort := dp.NodePort, Protocol := dp.Protocol } = dp) ∧
    (∀ (i : Nat) (dp : ServicePort), desired[i]? = some dp →
      ((∀ c ∈ cur, c.Port ≠ dp.Port) ∨ (dp.NodePort ≠ 0 ∧ dp.Protocol ≠ "")) →
      (MergeServicePorts cur desired)[i]? = some dp) ∧
    (cur = [] → MergeServicePorts cur desired = desired) ∧
    (∀ c ∈ cur, (∀ d ∈ desired, d.Port ≠ c.Port) → c ∉ MergeServicePorts cur desired) := by
  refine ⟨?_, ?_, ?_, ?_, ?_⟩
  · rw [MergeServicePorts_eq_map, List.length_map]
  · intro i dp hdp
    refine ⟨mergeEntry (curPorts cur) dp, ?_, ?_, mergeEntry_frame _ dp⟩
    · rw [MergeServicePorts_getElem?, hdp, Option.map_some']
    · have h := congrArg ServicePort.Port (mergeEntry_frame (curPorts cur) dp)
      exact h
  · intro i dp hdp h
    rw [MergeServicePorts_getElem?, hdp, Option.map_some']
    congr 1
    rcases h with h | ⟨h1, h2⟩
    · have hm : curPorts cur dp.Port = none := by
        rw [curPorts_eq_lastWithPort]
        exact lastWithPort_eq_none_of_not_mem cur dp.Port h
      simp [mergeEntry, hm]
    · unfold mergeEntry
      cases curPorts cur dp.Port with
      | none => rfl
      | some cp => simp [mergePort, h1, h2]
  · intro h
    subst h
    simp [MergeServicePorts]
  · intro c _ hc hmem
    rw [MergeServicePorts_eq_map, List.mem_map] at hmem
    obtain ⟨d, hd, heq⟩ := hmem
    have h := congrArg ServicePort.Port (mergeEntry_frame (curPorts cur) d)
    simp only at h
    rw [heq] at h
    exact hc d hd h.symm

/-! ### `CreateOrPatchService` -/

/-- C3: when `get` reports not-found, `CreateOrPatchService` issues one `get` and one
`create` and nothing else; the object created is `transform` of a fresh service with
kind `Service`, the core group-version and `meta`; the result is what `create` gave
back, with verb `VerbCreated` and the error of `create`. -/
theorem CreateOrPatchService_creates {σ : Type} (c : ServiceClient σ) (lib : Lib Service)
    (meta : ObjectMeta) (transform : Transform Service) (s : σ)
    (hnf : IsNotFound (c.Get s meta.Namespace meta.Name).1.2 = true) :
    CreateOrPatchService c lib meta transform (World.init s) =
      ((some (c.Create (c.Get s meta.Namespace meta.Name).2 meta.Namespace
            (transform.ret (freshService meta))).1.1,
        .VerbCreated,
        (c.Create (c.Get s meta.Namespace meta.Name).2 meta.Namespace
            (transform.ret (freshService meta))).1.2),
       ⟨(c.Create (c.Get s meta.Namespace meta.Name).2 meta.Namespace
            (transform.ret (freshService meta))).2,
        [.get meta.Namespace meta.Name,
         .create meta.Namespace (transform.ret (freshService meta))]⟩) ∧
    (freshService meta).TypeMeta.Kind = "Service" ∧
    (freshService meta).TypeMeta.APIVersion = SchemeGroupVersion.String ∧
    (freshService meta).ObjectMeta = meta := by
  refine ⟨?_, rfl, rfl, rfl⟩
  rcases hg : c.Get s meta.Namespace meta.Name with ⟨⟨cur, err⟩, s1⟩
  rw [hg] at hnf
  simp only at hnf
  simp [CreateOrPatchService, doGet, doCreate, World.init, hg, hnf]

/-- C3 on the empty in-memory store: `default/web` is created. -/
theorem CreateOrPatchService_creates_witness :
    IsNotFound (memClient.Get [] exampleMeta.Namespace exampleMeta.Name).1.2 = true ∧
    CreateOrPatchService memClient exampleLib exampleMeta setClusterIP (World.init []) =
      ((some exampleService, .VerbCreated, none),
       ⟨[exampleService], [.get "default" "web", .create "default" exampleService]⟩) :=
  ⟨by decide,
   (CreateOrPatchService_creates memClient exampleLib exampleMeta setClusterIP []
      (by decide)).1⟩

/-- `PatchServiceObject` from a world without earlier patch computations: verb
`VerbUnchanged` with a nil error exactly when the patch it computed is empty. -/
theorem PatchServiceObject_Unchanged_nil_iff {σ : Type} (c : ServiceClient σ)
    (lib : Lib Service) (cur mod : Service) (w : World σ Service)
    (hw : ∀ a b p e, Event.diff a b p e ∉ w.events) :
    ((PatchServiceObject c lib cur mod w).1.2.1 = .VerbUnchanged ∧
      (PatchServiceObject c lib cur mod w).1.2.2 = none) ↔
    ∃ p, Event.diff (lib.Marshal cur).1 (lib.Marshal mod).1 p none ∈
        (PatchServiceObject c lib cur mod w).2.events ∧ (p.length = 0 ∨ p = "\x7b\x7d") := by
  rcases hc : lib.Marshal cur with ⟨cj, e1⟩
  rcases hm : lib.Marshal mod with ⟨mj, e2⟩
  rcases hd : lib.CreateTwoWayMergePatch cj mj with ⟨p, e3⟩
  cases e1 with
  | some e1 => simp [PatchServiceObject, hc, hw]
  | none =>
    cases e2 with
    | some e2 => simp [PatchServiceObject, hc, hm, hw]
    | none =>
      cases e3 with
      | some e3 => simp [PatchServiceObject, doDiff, hc, hm, hd, hw]
      | none =>
        by_cases hp : p.length = 0 ∨ p = "\x7b\x7d"
        · simp [PatchServiceObject, doDiff, hc, hm, hd, hw, hp]
        · simp [PatchServiceObject, doDiff, doPatch, hc, hm, hd, hw, hp]

/-- `PatchServiceObject` issues no `create`, `update` or `patch` when it returns verb
`VerbUnchanged`. -/
theorem PatchServiceObject_Unchanged_no_write {σ : Type} (c : ServiceClient σ)
    (lib : Lib Service) (cur mod : Service) (w : World σ Service)
    (hw : ∀ e ∈ w.events, e.isWrite = false)
    (h : (PatchServiceObject c lib cur mod w).1.2.1 = .VerbUnchanged) :
    ∀ e ∈ (PatchServiceObject c lib cur mod w).2.events, e.isWrite = false := by
  rcases hc : lib.Marshal cur with ⟨cj, e1⟩
  rcases hm : lib.Marshal mod with ⟨mj, e2⟩
  rcases hd : lib.CreateTwoWayMergePatch cj mj with ⟨p, e3⟩
  revert h
  cases e1 with
  | some e1 => simpa [PatchServiceObject, hc] using hw
  | none =>
    cases e2 with
    | some e2 => simpa [PatchServiceObject, hc, hm] using hw
    | none =>
      cases e3 with
      | some e3 =>
        simp only [PatchServiceObject, doDiff, hc, hm, hd]
        simp only [Option.isSome_none, Bool.false_eq_true, if_false, Option.isSome_some, if_true]
        intro _ e he
        rcases List.mem_append.mp he with h1 | h1
        · exact hw e h1
        · rw [List.mem_singleton.mp h1]; rfl
      | none =>
        by_cases hp : p.length = 0 ∨ p = "\x7b\x7d"
        · simp only [PatchServiceObject, doDiff, hc, hm, hd]
          simp only [Option.isSome_none, Bool.false_eq_true, if_false, hp, if_true]
          intro _ e he
          rcases List.mem_append.mp he with h1 | h1
          · exact hw e h1
          · rw [List.mem_singleton.mp h1]; rfl
        · simp [PatchServiceObject, doDiff, doPatch, hc, hm, hd, hp]

/-- C2, amended: `CreateOrPatchService` and `PatchServiceObject` return verb
`VerbUnchanged` together with a nil error if and only if they computed a patch
between the fetched and the transformed object and that patch is empty; and a run
that returns `VerbUnchanged`, with or without an error, has issued no `create`,
`update` or `patch`. -/
theorem CreateOrPatchService_Unchanged_nil_iff {σ : Type} (c : ServiceClient σ)
    (lib : Lib Service) (meta : ObjectMeta) (transform : Transform Service) (s : σ)
    (cur mod : Service) :
    (((CreateOrPatchService c lib meta transform (World.init s)).1.2.1 = .VerbUnchanged ∧
        (CreateOrPatchService c lib meta transform (World.init s)).1.2.2 = none) ↔
      ∃ p, Event.diff (lib.Marshal (c.Get s meta.Namespace meta.Name).1.1).1
            (lib.Marshal (transform.ret (c.Get s meta.Namespace meta.Name).1.1)).1 p none ∈
          (CreateOrPatchService c lib meta transform (World.init s)).2.events ∧
        (p.length = 0 ∨ p = "\x7b\x7d")) ∧
    (((PatchServiceObject c lib cur mod (World.init s)).1.2.1 = .VerbUnchanged ∧
        (PatchServiceObject c lib cur mod (World.init s)).1.2.2 = none) ↔
      ∃ p, Event.diff (lib.Marshal cur).1 (lib.Marshal mod).1 p none ∈
          (PatchServiceObject c lib cur mod (World.init s)).2.events ∧
        (p.length = 0 ∨ p = "\x7b\x7d")) ∧
    ((CreateOrPatchService c lib meta transform (World.init s)).1.2.1 = .VerbUnchanged →
      ∀ e ∈ (CreateOrPatchService c lib meta transform (World.init s)).2.events,
        e.isWrite = false) ∧
    ((PatchServiceObject c lib cur mod (World.init s)).1.2.1 = .VerbUnchanged →
      ∀ e ∈ (PatchServiceObject c lib cur mod (World.init s)).2.events,
        e.isWrite = false) := by
  refine ⟨?_, ?_, ?_, ?_⟩
  · rcases hg : c.Get s meta.Namespace meta.Name with ⟨⟨got, err⟩, s1⟩
    by_cases hnf : IsNotFound err = true
    · simp [CreateOrPatchService, doGet, doCreate, World.init, hg, hnf]
    · cases err with
      | some e => simp [CreateOrPatchService, doGet, World.init, hg, hnf]
      | none =>
        have h := PatchServiceObject_Unchanged_nil_iff c lib got (transform.ret got)
          ⟨s1, [Event.get meta.Namespace meta.Name]⟩ (by simp)
        simpa [CreateOrPatchService, PatchService, doGet, World.init, hg, hnf] using h
  · exact PatchServiceObject_Unchanged_nil_iff c lib cur mod (World.init s)
      (by simp [World.init])
  · rcases hg : c.Get s meta.Namespace meta.Name with ⟨⟨got, err⟩, s1⟩
    by_cases hnf : IsNotFound err = true
    · simp [CreateOrPatchService, doGet, doCreate, World.init, hg, hnf]
    · cases err with
      | some e => simp [CreateOrPatchService, doGet, World.init, hg, hnf, Event.isWrite]
      | none =>
        have h := PatchServiceObject_Unchanged_no_write c lib got (transform.ret got)
          ⟨s1, [Event.get meta.Namespace meta.Name]⟩ (by simp [Event.isWrite])
        simpa [CreateOrPatchService, PatchService, doGet, World.init, hg, hnf] using h
  · exact PatchServiceObject_Unchanged_no_write c lib cur mod (World.init s)
      (by simp [World.init])

/-- C2 as stated fails: against a store that answers `get` with `Forbidden`,
`CreateOrPatchService` returns verb `VerbUnchanged` (and the error) after the `get`
alone; no patch has been computed. -/
theorem CreateOrPatchService_Unchanged_without_patch :
    CreateOrPatchService forbiddenClient exampleLib exampleMeta setClusterIP (World.init ()) =
      ((none, .VerbUnchanged, some (.status .Forbidden "forbidden")),
       ⟨(), [.get "default" "web"]⟩) ∧
    ¬ ∃ a b p e, Event.diff a b p e ∈
      (CreateOrPatchService forbiddenClient exampleLib exampleMeta setClusterIP
        (World.init ())).2.events := by
  have h : CreateOrPatchService forbiddenClient exampleLib exampleMeta setClusterIP
      (World.init ()) =
      ((none, .VerbUnchanged, some (.status .Forbidden "forbidden")),
       ⟨(), [.get "default" "web"]⟩) := by decide
  refine ⟨h, ?_⟩
  rw [h]
  simp

/-- C4: when `get` finds `cur`, `transform` leaves the serialisation `j` of `cur` as it
is, and the patch generator gives an empty patch for `j` against itself,
`CreateOrPatchService` issues the `get` and computes the patch and nothing more (no
`create`, `patch` or `update`), the store is in the state the `get` left it in, and
the result is `(cur, VerbUnchanged, nil)`; with a `get` that leaves the store as it
is, the store is unchanged and a second call returns the same again. -/
theorem CreateOrPatchService_idempotent {σ : Type} (c : ServiceClient σ) (lib : Lib Service)
    (meta : ObjectMeta) (transform : Transform Service) (s : σ) (cur : Service) (j : String)
    (hget : (c.Get s meta.Namespace meta.Name).1 = (cur, none))
    (hcur : lib.Marshal cur = (j, none))
    (hmod : lib.Marshal (transform.ret cur) = lib.Marshal cur)
    (hrefl : (lib.CreateTwoWayMergePatch j j).2 = none ∧
      ((lib.CreateTwoWayMergePatch j j).1.length = 0 ∨
        (lib.CreateTwoWayMergePatch j j).1 = "\x7b\x7d")) :
    CreateOrPatchService c lib meta transform (World.init s) =
      ((some cur, .VerbUnchanged, none),
       ⟨(c.Get s meta.Namespace meta.Name).2,
        [.get meta.Namespace meta.Name,
         .diff j j (lib.CreateTwoWayMergePatch j j).1 none]⟩) ∧
    (∀ e ∈ (CreateOrPatchService c lib meta transform (World.init s)).2.events,
      e.isWrite = false) ∧
    ((c.Get s meta.Namespace meta.Name).2 = s →
      (CreateOrPatchService c lib meta transform (World.init s)).2.store = s ∧
      CreateOrPatchService c lib meta transform
          (World.init (CreateOrPatchService c lib meta transform (World.init s)).2.store) =
        CreateOrPatchService c lib meta transform (World.init s)) := by
  have hfirst : CreateOrPatchService c lib meta transform (World.init s) =
      ((some cur, .VerbUnchanged, none),
       ⟨(c.Get s meta.Namespace meta.Name).2,
        [.get meta.Namespace meta.Name,
         .diff j j (lib.CreateTwoWayMergePatch j j).1 none]⟩) := by
    rcases hg : c.Get s meta.Namespace meta.Name with ⟨⟨got, err⟩, s1⟩
    rw [hg] at hget
    simp only [Prod.mk.injEq] at hget
    obtain ⟨h1, h2⟩ := hget
    subst h1 h2
    rcases hd : lib.CreateTwoWayMergePatch j j with ⟨p, e3⟩
    have hr := hrefl
    rw [hd] at hr
    simp only at hr
    obtain ⟨hr1, hr2⟩ := hr
    subst hr1
    have hnf : IsNotFound (none : error) = false := rfl
    simp [CreateOrPatchService, PatchService, PatchServiceObject, doGet, doDiff, World.init,
      hg, hnf, hmod, hcur, hd, hr2]
  refine ⟨hfirst, ?_, ?_⟩
  · rw [hfirst]
    simp [Event.isWrite]
  · intro hread
    rw [hfirst]
    simp only
    refine ⟨hread, ?_⟩
    have h2 := hfirst
    rw [hread] at h2 ⊢
    exact h2

/-- C4 on the in-memory store that already holds `default/web` with the service type
`setClusterIP` sets: nothing is written, both times. -/
theorem CreateOrPatchService_idempotent_witness :
    CreateOrPatchService memClient exampleLib exampleMeta setClusterIP
        (World.init [exampleService]) =
      ((some exampleService, .VerbUnchanged, none),
       ⟨[exampleService],
        [.get "default" "web",
         .diff (exampleMarshal exampleService).1 (exampleMarshal exampleService).1
           "\x7b\x7d" none]⟩) ∧
    CreateOrPatchService memClient exampleLib exampleMeta setClusterIP
        (World.init (CreateOrPatchService memClient exampleLib exampleMeta setClusterIP
          (World.init [exampleService])).2.store) =
      CreateOrPatchService memClient exampleLib exampleMeta setClusterIP
        (World.init [exampleService]) :=
  have h := CreateOrPatchService_idempotent memClient exampleLib exampleMeta setClusterIP
    [exampleService] exampleService (exampleMarshal exampleService).1
    (by decide) rfl (by decide)
    (by decide)
  ⟨by decide, (h.2.2 (by decide)).2⟩

/-! ### `TryUpdateService` -/

/-- C5, amended: when the first `get` reports not-found, `TryUpdateService` issues
that one `get` and nothing else (no `update`, no sleep, no second attempt) and
returns a nil object; the error it returns is a new error whose text names the
service, one attempt and the text of the not-found error, and a not-found check on
it fails. -/
theorem TryUpdateService_not_found {σ : Type} (c : ServiceClient σ) (cfg : Config)
    (meta : ObjectMeta) (transform : Transform Service) (s : σ)
    (hnf : IsNotFound (c.Get s meta.Namespace meta.Name).1.2 = true) :
    TryUpdateService c cfg meta transform (World.init s) =
      ((none, some (TryUpdateService.failure meta 1 (c.Get s meta.Namespace meta.Name).1.2)),
       ⟨(c.Get s meta.Namespace meta.Name).2, [.get meta.Namespace meta.Name]⟩) ∧
    IsNotFound (TryUpdateService c cfg meta transform (World.init s)).1.2 = false := by
  have h : TryUpdateService c cfg meta transform (World.init s) =
      ((none, some (TryUpdateService.failure meta 1 (c.Get s meta.Namespace meta.Name).1.2)),
       ⟨(c.Get s meta.Namespace meta.Name).2, [.get meta.Namespace meta.Name]⟩) := by
    rcases hg : c.Get s meta.Namespace meta.Name with ⟨⟨cur, err⟩, s1⟩
    rw [hg] at hnf
    simp only at hnf
    cases err with
    | none => simp [IsNotFound, ReasonForError] at hnf
    | some e =>
      simp [TryUpdateService, PollImmediate, TryUpdateService.condition, doGet, World.init,
        hg, hnf]
  refine ⟨h, ?_⟩
  rw [h]
  rfl

/-- C5 on the empty in-memory store. -/
theorem TryUpdateService_not_found_witness :
    IsNotFound (memClient.Get [] exampleMeta.Namespace exampleMeta.Name).1.2 = true ∧
    (TryUpdateService memClient exampleConfig exampleMeta setClusterIP (World.init [])).2 =
      ⟨[], [.get "default" "web"]⟩ ∧
    IsNotFound (TryUpdateService memClient exampleConfig exampleMeta setClusterIP
      (World.init [])).1.2 = false :=
  have h := TryUpdateService_not_found memClient exampleConfig exampleMeta setClusterIP []
    (by decide)
  ⟨by decide, congrArg Prod.snd h.1, h.2⟩

/-- C5 as stated fails: on the empty in-memory store `get` reports a not-found status
error, and the error `TryUpdateService` returns is another value, on which the
not-found check fails. -/
theorem TryUpdateService_not_found_error_replaced :
    (memClient.Get [] "default" "web").1.2 =
      some (.status .NotFound "services \"web\" not found") ∧
    (TryUpdateService memClient exampleConfig exampleMeta setClusterIP (World.init [])).1.2 =
      some (.text ("failed to update Service default/web after 1 attempts due to " ++
        "services \"web\" not found")) ∧
    (TryUpdateService memClient exampleConfig exampleMeta setClusterIP (World.init [])).1.2 ≠
      (memClient.Get [] "default" "web").1.2 ∧
    IsNotFound (TryUpdateService memClient exampleConfig exampleMeta setClusterIP
      (World.init [])).1.2 = false := by
  refine ⟨by decide, by decide, by decide, by decide⟩

/-- One attempt of `TryUpdateService` against a scripted store, after attempts
`0 .. j`: it sleeps one interval, gets, and updates with `transform` of what that
`get` returned. -/
theorem TryUpdateService_condition_next (sc : Script Service ServiceList) (meta : ObjectMeta)
    (transform : Transform Service) (interval j : Nat)
    (hget : (sc.gets (j + 1)).2 = none) :
    TryUpdateService.condition sc.client meta transform
        ((afterAttempt sc meta transform interval j).1,
         doSleep (afterAttempt sc meta transform interval j).2 interval) =
      (((sc.updates (j + 1)).2.isNone, none), afterAttempt sc meta transform interval (j + 1)) := by
  rcases hg : sc.gets (j + 1) with ⟨cur, e⟩
  rw [hg] at hget
  simp only at hget
  subst hget
  simp [TryUpdateService.condition, afterAttempt, doSleep, doGet, doUpdate, Script.client,
    updateAttempts, hg, IsNotFound, ReasonForError]

/-- The first attempt of `TryUpdateService` against a scripted store. -/
theorem TryUpdateService_condition_first (sc : Script Service ServiceList) (meta : ObjectMeta)
    (transform : Transform Service) (interval : Nat)
    (hget : (sc.gets 0).2 = none) :
    TryUpdateService.condition sc.client meta transform (⟨0, none⟩, World.init Cursor.start) =
      (((sc.updates 0).2.isNone, none), afterAttempt sc meta transform interval 0) := by
  rcases hg : sc.gets 0 with ⟨cur, e⟩
  rw [hg] at hget
  simp only at hget
  subst hget
  simp [TryUpdateService.condition, afterAttempt, doGet, doUpdate, Script.client,
    updateAttempts, hg, IsNotFound, ReasonForError, World.init, Cursor.start]

/-- The poll of `TryUpdateService` after attempts `0 .. j` have failed, when the
updates of the attempts up to `k` fail and that of attempt `k` succeeds. -/
theorem TryUpdateService_pollLoop (sc : Script Service ServiceList) (meta : ObjectMeta)
    (transform : Transform Service) (interval rest k : Nat)
    (hgets : ∀ i, i ≤ k → (sc.gets i).2 = none)
    (hfail : ∀ i, i < k → (sc.updates i).2 ≠ none)
    (hok : (sc.updates k).2 = none) :
    ∀ m j, j + m + 1 = k → ∀ n, m + 1 ≤ n →
      pollLoop interval rest (TryUpdateService.condition sc.client meta transform) n
          (afterAttempt sc meta transform interval j) =
        (none, afterAttempt sc meta transform interval k) := by
  intro m
  induction m with
  | zero =>
    intro j hj n hn
    obtain ⟨n, rfl⟩ : ∃ n0, n = n0 + 1 := ⟨n - 1, by omega⟩
    have hstep := TryUpdateService_condition_next sc meta transform interval j
      (hgets (j + 1) (by omega))
    have hk : j + 1 = k := by omega
    rw [hk] at hstep
    simp [pollLoop, hstep, hok]
  | succ m ih =>
    intro j hj n hn
    obtain ⟨n, rfl⟩ : ∃ n0, n = n0 + 1 := ⟨n - 1, by omega⟩
    have hstep := TryUpdateService_condition_next sc meta transform interval j
      (hgets (j + 1) (by omega))
    have hf : (sc.updates (j + 1)).2.isNone = false := by
      have := hfail (j + 1) (by omega)
      cases h : (sc.updates (j + 1)).2 with
      | none => exact absurd h this
      | some e => rfl
    have hrec := ih (j + 1) (by omega) n (by omega)
    simp [pollLoop, hstep, hf, hrec]

/-- C7: against a store whose gets succeed and whose updates fail on attempts
`1 .. k` and succeed on attempt `k + 1` (indices `0 .. k - 1` and `k` here), with
`k + 1` attempts fitting in the retry budget, `TryUpdateService` makes `k + 1`
attempts; each does its own `get` and submits `transform` of the object that `get`
returned; the result is the object the successful update returned, with a nil
error. -/
theorem TryUpdateService_retries_from_fresh_get (sc : Script Service ServiceList)
    (cfg : Config) (meta : ObjectMeta) (transform : Transform Service) (k : Nat)
    (hgets : ∀ i, i ≤ k → (sc.gets i).2 = none)
    (hfail : ∀ i, i < k → (sc.updates i).2 ≠ none)
    (hok : (sc.updates k).2 = none)
    (hbudget : k ≤ cfg.RetryTimeout / cfg.RetryInterval) :
    TryUpdateService sc.client cfg meta transform (World.init Cursor.start) =
      ((some (sc.updates k).1, none),
       ⟨⟨k + 1, 0, k + 1, 0, 0⟩, updateAttempts sc meta transform cfg.RetryInterval k⟩) := by
  have hfirst := TryUpdateService_condition_first sc meta transform cfg.RetryInterval
    (hgets 0 (by omega))
  cases k with
  | zero =>
    simp [TryUpdateService, PollImmediate, hfirst, hok, afterAttempt]
  | succ k =>
    have hf : (sc.updates 0).2.isNone = false := by
      have := hfail 0 (by omega)
      cases h : (sc.updates 0).2 with
      | none => exact absurd h this
      | some e => rfl
    have hloop := TryUpdateService_pollLoop sc meta transform cfg.RetryInterval
      (cfg.RetryTimeout % cfg.RetryInterval) (k + 1)
      hgets hfail hok k 0 (by omega) (cfg.RetryTimeout / cfg.RetryInterval) hbudget
    unfold TryUpdateService PollImmediate
    rw [hfirst]
    simp only [hf, Option.isSome_none, Bool.false_eq_true, if_false]
    rw [hloop]
    simp [afterAttempt]

/-- C7 on a script with two conflicts: three attempts, the third update is of
`transform` of the object at resource version 3. -/
theorem TryUpdateService_retries_from_fresh_get_witness :
    TryUpdateService conflictTwiceScript.client exampleConfig exampleMeta setClusterIP
        (World.init Cursor.start) =
      ((some (setClusterIP.ret (versionedService "4")), none),
       ⟨⟨3, 0, 3, 0, 0⟩,
        [.get "default" "web", .update "default" (setClusterIP.ret (versionedService "1")),
         .sleep 50000000,
         .get "default" "web", .update "default" (setClusterIP.ret (versionedService "2")),
         .sleep 50000000,
         .get "default" "web", .update "default" (setClusterIP.ret (versionedService "3"))]⟩) :=
  TryUpdateService_retries_from_fresh_get conflictTwiceScript exampleConfig exampleMeta
    setClusterIP 2 (fun _ _ => rfl)
    (fun i hi => by simp [conflictTwiceScript, hi])
    (by decide) (by decide)

/-! ### `WaitUntilServiceDeletedBySelector` -/

/-- One poll cycle of `WaitUntilServiceDeletedBySelector` against a scripted store,
after cycles `0 .. j`. -/
theorem WaitUntilServiceDeletedBySelector_condition_next (sc : Script Service ServiceList)
    (ns : String) (opts : ListOptions) (interval j : Nat) :
    WaitUntilServiceDeletedBySelector.condition sc.client ns opts.LabelSelector
        ((afterCycle ns opts interval j).1, doSleep (afterCycle ns opts interval j).2 interval) =
      ((decide ((sc.lists (j + 1)).2 = none ∧ (sc.lists (j + 1)).1.Items = []), none),
       afterCycle ns opts interval (j + 1)) := by
  rcases hl : sc.lists (j + 1) with ⟨l, e⟩
  cases e with
  | some e =>
    simp [WaitUntilServiceDeletedBySelector.condition, afterCycle, doSleep, doList,
      Script.client, listCycles, hl]
  | none =>
    simp [WaitUntilServiceDeletedBySelector.condition, afterCycle, doSleep, doList,
      Script.client, listCycles, hl]

/-- The first poll cycle of `WaitUntilServiceDeletedBySelector` against a scripted
store. -/
theorem WaitUntilServiceDeletedBySelector_condition_first (sc : Script Service ServiceList)
    (ns : String) (opts : ListOptions) (interval : Nat) :
    WaitUntilServiceDeletedBySelector.condition sc.client ns opts.LabelSelector
        ((), World.init Cursor.start) =
      ((decide ((sc.lists 0).2 = none ∧ (sc.lists 0).1.Items = []), none),
       afterCycle ns opts interval 0) := by
  rcases hl : sc.lists 0 with ⟨l, e⟩
  cases e with
  | some e =>
    simp [WaitUntilServiceDeletedBySelector.condition, afterCycle, doList,
      Script.client, listCycles, hl, World.init, Cursor.start]
  | none =>
    simp [WaitUntilServiceDeletedBySelector.condition, afterCycle, doList,
      Script.client, listCycles, hl, World.init, Cursor.start]

/-- The poll of `WaitUntilServiceDeletedBySelector` after cycles `0 .. j` have found
services or an error, when cycle `N` is the first to find none. -/
theorem WaitUntilServiceDeletedBySelector_pollLoop (sc : Script Service ServiceList)
    (ns : String) (opts : ListOptions) (interval rest N : Nat)
    (hbusy : ∀ i, i < N → (sc.lists i).2 ≠ none ∨ (sc.lists i).1.Items ≠ [])
    (hempty : (sc.lists N).2 = none ∧ (sc.lists N).1.Items = []) :
    ∀ m j, j + m + 1 = N → ∀ n, m + 1 ≤ n →
      pollLoop interval rest
          (WaitUntilServiceDeletedBySelector.condition sc.client ns opts.LabelSelector) n
          (afterCycle ns opts interval j) =
        (none, afterCycle ns opts interval N) := by
  intro m
  induction m with
  | zero =>
    intro j hj n hn
    obtain ⟨n, rfl⟩ : ∃ n0, n = n0 + 1 := ⟨n - 1, by omega⟩
    have hstep := WaitUntilServiceDeletedBySelector_condition_next sc ns opts interval j
    have hk : j + 1 = N := by omega
    rw [hk] at hstep
    simp [pollLoop, hstep, hempty]
  | succ m ih =>
    intro j hj n hn
    obtain ⟨n, rfl⟩ : ∃ n0, n = n0 + 1 := ⟨n - 1, by omega⟩
    have hstep := WaitUntilServiceDeletedBySelector_condition_next sc ns opts interval j
    have hf : decide ((sc.lists (j + 1)).2 = none ∧ (sc.lists (j + 1)).1.Items = []) = false := by
      have := hbusy (j + 1) (by omega)
      simp only [decide_eq_false_iff_not, not_and]
      intro h1 h2
      rcases this with h | h
      · exact h h1
      · exact h h2
    have hrec := ih (j + 1) (by omega) n (by omega)
    simp only [pollLoop, hstep, hf, Option.isSome_none, Bool.false_eq_true, if_false]
    exact hrec

theorem listCycles_head (ns : String) (opts : ListOptions) (interval n : Nat) :
    (listCycles ns opts interval n).head? = some (.list ns opts) := by
  induction n with
  | zero => rfl
  | succ n ih =>
    rw [listCycles, List.head?_append, ih]
    rfl

theorem listCycles_count (ns : String) (opts : ListOptions) (interval n : Nat) :
    ((listCycles ns opts interval n).filter Event.isList).length = n + 1 := by
  induction n with
  | zero => rfl
  | succ n ih =>
    rw [listCycles, List.filter_append, List.length_append, ih]
    rfl

/-- C8: with a selector the conversion accepts, against a store whose `list` returns
services or an error in each of the first `N` cycles and no service in the next one,
and with `N + 1` cycles fitting in the readiness budget,
`WaitUntilServiceDeletedBySelector` returns nil after exactly `N + 1` cycles of one
`list` each, an interval of sleep between two cycles and none before the first. -/
theorem WaitUntilServiceDeletedBySelector_returns_at_first_empty
    {LabelSelector Selector : Type} (sc : Script Service ServiceList) (cfg : Config)
    (LabelSelectorAsSelector : LabelSelector → Selector × error)
    (selString : Selector → String) (ns : String) (selector : LabelSelector) (N : Nat)
    (hvalid : (LabelSelectorAsSelector selector).2 = none)
    (hbusy : ∀ i, i < N → (sc.lists i).2 ≠ none ∨ (sc.lists i).1.Items ≠ [])
    (hempty : (sc.lists N).2 = none ∧ (sc.lists N).1.Items = [])
    (hbudget : N ≤ cfg.ReadinessTimeout / cfg.RetryInterval) :
    WaitUntilServiceDeletedBySelector sc.client cfg LabelSelectorAsSelector selString ns
        selector (World.init Cursor.start) =
      (none,
       ⟨⟨0, 0, 0, 0, N + 1⟩,
        listCycles ns ⟨selString (LabelSelectorAsSelector selector).1⟩ cfg.RetryInterval N⟩) ∧
    ((WaitUntilServiceDeletedBySelector sc.client cfg LabelSelectorAsSelector selString ns
        selector (World.init Cursor.start)).2.events.filter Event.isList).length = N + 1 ∧
    (WaitUntilServiceDeletedBySelector sc.client cfg LabelSelectorAsSelector selString ns
        selector (World.init Cursor.start)).2.events.head? =
      some (.list ns ⟨selString (LabelSelectorAsSelector selector).1⟩) := by
  have hmain : WaitUntilServiceDeletedBySelector sc.client cfg LabelSelectorAsSelector
      selString ns selector (World.init Cursor.start) =
      (none,
       ⟨⟨0, 0, 0, 0, N + 1⟩,
        listCycles ns ⟨selString (LabelSelectorAsSelector selector).1⟩ cfg.RetryInterval N⟩) := by
    rcases hs : LabelSelectorAsSelector selector with ⟨sel, e⟩
    rw [hs] at hvalid
    simp only at hvalid
    subst hvalid
    have hfirst := WaitUntilServiceDeletedBySelector_condition_first sc ns ⟨selString sel⟩
      cfg.RetryInterval
    simp only at hfirst
    cases N with
    | zero =>
      simp [WaitUntilServiceDeletedBySelector, PollImmediate, hs, hfirst, hempty, afterCycle]
    | succ N =>
      have hf : decide ((sc.lists 0).2 = none ∧ (sc.lists 0).1.Items = []) = false := by
        have := hbusy 0 (by omega)
        simp only [decide_eq_false_iff_not, not_and]
        intro h1 h2
        rcases this with h | h
        · exact h h1
        · exact h h2
      have hloop := WaitUntilServiceDeletedBySelector_pollLoop sc ns ⟨selString sel⟩
        cfg.RetryInterval (cfg.ReadinessTimeout % cfg.RetryInterval) (N + 1) hbusy hempty N 0
        (by omega)
        (cfg.ReadinessTimeout / cfg.RetryInterval) hbudget
      simp only at hloop
      unfold WaitUntilServiceDeletedBySelector PollImmediate
      simp only [hs, Option.isSome_none, Bool.false_eq_true, if_false]
      rw [hfirst]
      simp only [hf, Option.isSome_none, Bool.false_eq_true, if_false]
      rw [hloop]
      simp [afterCycle]
  refine ⟨hmain, ?_, ?_⟩
  · rw [hmain]
    exact listCycles_count _ _ _ _
  · rw [hmain]
    exact listCycles_head _ _ _ _

/-- C8 on a script whose `list` finds a service twice and then none, with a selector
that is its own string form: three cycles. -/
theorem WaitUntilServiceDeletedBySelector_returns_at_first_empty_witness :
    WaitUntilServiceDeletedBySelector conflictTwiceScript.client exampleConfig
        (fun s : String => (s, none)) id "default" "app=web" (World.init Cursor.start) =
      (none,
       ⟨⟨0, 0, 0, 0, 3⟩,
        [.list "default" ⟨"app=web"⟩, .sleep 50000000, .list "default" ⟨"app=web"⟩,
         .sleep 50000000, .list "default" ⟨"app=web"⟩]⟩) :=
  (WaitUntilServiceDeletedBySelector_returns_at_first_empty conflictTwiceScript exampleConfig
    (fun s : String => (s, none)) id "default" "app=web" 2 rfl
    (fun i hi => by simp [conflictTwiceScript, hi])
    (by decide) (by decide)).1

/-! ### `TryUpdatePostgres` -/

/-- C6, what the code does: with `MaxAttempts = 3`, a `get` that always succeeds, an
`update` that is always rejected with `Conflict` and a transform that adds a replica,
`TryUpdatePostgres` makes one `get` and one `update` and returns the `Conflict` error
of that update; it does not sleep, does not try again, and the error is not the
"after 3 attempts" error. -/
theorem TryUpdatePostgres_returns_first_conflict :
    exampleConfig.MaxAttempts = 3 ∧
    TryUpdatePostgres alwaysConflictScript.client postgresLib exampleConfig
        (examplePostgres 1).ObjectMeta addReplicaOnCopy (World.init Cursor.start) =
      ((some (examplePostgres 0),
        some (.status .Conflict "the object has been modified")),
       ⟨⟨1, 0, 1, 0, 0⟩, [.get "default" "pg", .update "default" (examplePostgres 2)]⟩) ∧
    (TryUpdatePostgres alwaysConflictScript.client postgresLib exampleConfig
        (examplePostgres 1).ObjectMeta addReplicaOnCopy (World.init Cursor.start)).1.2 ≠
      some (TryUpdatePostgres.failure (examplePostgres 1).ObjectMeta 3) := by
  refine ⟨rfl, by decide, by decide⟩

/-- C9, what the code does: with a `get` that returns `default/pg` with one replica
and a transform that adds a replica in place, the object `TryUpdatePostgres` submits
to `update` has three replicas: the transform has run twice on the fetched object,
where one application gives two replicas. -/
theorem TryUpdatePostgres_applies_transform_twice :
    addReplica.ret (examplePostgres 1) = examplePostgres 2 ∧
    (TryUpdatePostgres acceptingScript.client postgresLib exampleConfig
        (examplePostgres 1).ObjectMeta addReplica (World.init Cursor.start)).2.events =
      [.get "default" "pg", .update "default" (examplePostgres 3)] := by
  refine ⟨by decide, by decide⟩

end Kutil
